import Mathlib

/-!
Verification of the Winsen ZE07-CO sensor interface
(src/carbon_monoxide_detector.py) against its specification.

The Python module is shallowly embedded below.  Bytes are natural numbers
(values 0..255); a byte string is a `List Nat`.  The pyserial port is
modelled as a `SerialPort`: an open flag, the bytes that will arrive from
the device before the read timeout (`buffer`), and the log of byte strings
written to the device (`written`).  `read n` consumes up to `n` bytes from
the front of the buffer (returning fewer on "timeout", exactly as pyserial
does with a timeout configured); `write` appends to the log.  The Python
float literal `0.1` is modelled as the exact rational `1 / 10`, so the
measurement type is `ℚ`.  Python functions that can return `None`, `False`
or fall off the end are given explicit result types (`Option ℚ`,
`PyResult`).
-/

namespace ZE07

/-- Python `~c & 0xFF` for a nonnegative `c`: since `~c = -(c+1)`,
`(~c) & 0xFF = (255 - c % 256)` as a natural number. -/
def byteNot (c : Nat) : Nat := 255 - c % 256

/-- Embedding of `CarbonMonoxideDetector._calculate_checksum`:
`payload = data[1:8]; checksum = sum(payload) & 0xFF;
checksum = ((~checksum) & 0xFF) + 1; return checksum & 0xFF`. -/
def calculate_checksum (data : List Nat) : Nat :=
  let payload := (data.drop 1).take 7
  let checksum := payload.sum % 256
  let checksum := byteNot checksum + 1
  checksum % 256

/-- The checksum as the specification words it: sum the bytes at indices
1..7, mask to 8 bits, complement within 8 bits, add 1, mask to 8 bits. -/
def checksum_spec (d : List Nat) : Nat :=
  let s := (d.getD 1 0 + d.getD 2 0 + d.getD 3 0 + d.getD 4 0 + d.getD 5 0
      + d.getD 6 0 + d.getD 7 0) % 256
  ((255 - s) + 1) % 256

/-- The serial-port collaborator: open flag, bytes available to read before
the timeout, and the log of writes. -/
structure SerialPort where
  is_open : Bool
  buffer : List Nat
  written : List (List Nat)
deriving DecidableEq, Repr

/-- `ser.read(n)`: up to `n` bytes from the front of the stream; fewer
arrive on timeout. -/
def SerialPort.read (s : SerialPort) (n : Nat) : List Nat × SerialPort :=
  (s.buffer.take n, ⟨s.is_open, s.buffer.drop n, s.written⟩)

/-- `ser.write(cmd)`: record the outbound bytes. -/
def SerialPort.write (s : SerialPort) (cmd : List Nat) : SerialPort :=
  ⟨s.is_open, s.buffer, s.written ++ [cmd]⟩

/-- Later bytes arriving from the device are appended to the buffer. -/
def SerialPort.feed (s : SerialPort) (bs : List Nat) : SerialPort :=
  ⟨s.is_open, s.buffer ++ bs, s.written⟩

/-- Result value of the Python mode setters: `False` on a closed port,
`None` (implicit return) on the success path. -/
inductive PyResult where
  | pyNone : PyResult
  | pyBool : Bool → PyResult
deriving DecidableEq, Repr

/-- Python truthiness of the two values a mode setter can produce. -/
def PyResult.truthy : PyResult → Bool
  | pyNone => false
  | pyBool b => b

/-- `(high_byte * 256 + low_byte) * 0.1`, with `0.1` the exact rational. -/
def ppm_of (high low : Nat) : ℚ := ((high : ℚ) * 256 + (low : ℚ)) * (1 / 10)

/-- The 9-byte command written by `set_initiative_upload_mode`. -/
def upload_mode_command : List Nat :=
  let command := [0xFF, 0x01, 0x78, 0x40, 0x00, 0x00, 0x00, 0x00]
  command ++ [calculate_checksum command]

/-- The 9-byte command written by `set_qa_mode`. -/
def qa_mode_command : List Nat :=
  let command := [0xFF, 0x01, 0x78, 0x41, 0x00, 0x00, 0x00, 0x00]
  command ++ [calculate_checksum command]

/-- The 9-byte request-reading command written by `get_qa_co_ppm`. -/
def qa_request_command : List Nat :=
  let command := [0xFF, 0x01, 0x86, 0x00, 0x00, 0x00, 0x00, 0x00]
  command ++ [calculate_checksum command]

/-- Embedding of `set_initiative_upload_mode`. -/
def set_initiative_upload_mode (s : SerialPort) : PyResult × SerialPort :=
  if s.is_open = false then (PyResult.pyBool false, s)
  else (PyResult.pyNone, s.write upload_mode_command)

/-- Embedding of `set_qa_mode`. -/
def set_qa_mode (s : SerialPort) : PyResult × SerialPort :=
  if s.is_open = false then (PyResult.pyBool false, s)
  else (PyResult.pyNone, s.write qa_mode_command)

/-- Embedding of `get_initiative_co_ppm` (one call of the push-mode
reader): read one byte; on the start marker `0xFF` read the 8 remaining
bytes, verify the checksum and extract `(packet[4]*256 + packet[5]) * 0.1`;
on any failure return `None`. -/
def get_initiative_co_ppm (s : SerialPort) : Option ℚ × SerialPort :=
  if s.is_open = false then (none, s)
  else
    let r1 := s.read 1
    match r1.1 with
    | [] => (none, r1.2)
    | b :: _ =>
      if b = 0xFF then
        let r2 := r1.2.read 8
        let data := r2.1
        if data.length = 8 then
          let full_packet := 0xFF :: data
          let received_checksum := full_packet.getD 8 0
          let calculated_checksum := calculate_checksum full_packet
          if received_checksum = calculated_checksum then
            (some (ppm_of (full_packet.getD 4 0) (full_packet.getD 5 0)), r2.2)
          else (none, r2.2)
        else (none, r2.2)
      else (none, r1.2)

/-- Embedding of `get_qa_co_ppm`: write the request-reading command, read
9 bytes, require the full length and the `0xFF 0x86` header, verify the
checksum and extract `(response[2]*256 + response[3]) * 0.1`. -/
def get_qa_co_ppm (s : SerialPort) : Option ℚ × SerialPort :=
  if s.is_open = false then (none, s)
  else
    let s1 := s.write qa_request_command
    let r := s1.read 9
    let response := r.1
    if response.length = 9 ∧ response.getD 0 0 = 0xFF ∧ response.getD 1 0 = 0x86 then
      let received_checksum := response.getD 8 0
      let calculated_checksum := calculate_checksum response
      if received_checksum = calculated_checksum then
        (some (ppm_of (response.getD 2 0) (response.getD 3 0)), r.2)
      else (none, r.2)
    else (none, r.2)

/-- Repeatedly call the push-mode reader until a measurement is produced
or the fuel runs out (the surrounding polling loop). -/
def read_loop : Nat → SerialPort → Option ℚ × SerialPort
  | 0, s => (none, s)
  | n + 1, s =>
    match get_initiative_co_ppm s with
    | (some v, s1) => (some v, s1)
    | (none, s1) => read_loop n s1

/-- Flip bit `k` of the byte at index `i` of a frame. -/
def flipBit (f : List Nat) (i k : Nat) : List Nat :=
  f.set i (f.getD i 0 ^^^ 2 ^ k)

end ZE07

namespace ZE07

lemma list_len_nine (f : List Nat) (h : f.length = 9) :
    ∃ b0 b1 b2 b3 b4 b5 b6 b7 b8,
      f = [b0, b1, b2, b3, b4, b5, b6, b7, b8] := by
  rcases f with _ | ⟨b0, f⟩; · simp at h
  rcases f with _ | ⟨b1, f⟩; · simp at h
  rcases f with _ | ⟨b2, f⟩; · simp at h
  rcases f with _ | ⟨b3, f⟩; · simp at h
  rcases f with _ | ⟨b4, f⟩; · simp at h
  rcases f with _ | ⟨b5, f⟩; · simp at h
  rcases f with _ | ⟨b6, f⟩; · simp at h
  rcases f with _ | ⟨b7, f⟩; · simp at h
  rcases f with _ | ⟨b8, f⟩; · simp at h
  rcases f with _ | ⟨b9, f⟩
  · exact ⟨b0, b1, b2, b3, b4, b5, b6, b7, b8, rfl⟩
  · simp at h

/-- Claim C1: for every byte sequence of length at least 8 the checksum
function agrees with the specification formula over indices 1..7, yields a
value below 256, and maps a zero masked sum to 0 (wrapping 0 to 0, not
256). -/
theorem checksum_spec_correct (d : List Nat) (h : 8 ≤ d.length) :
    calculate_checksum d = checksum_spec d ∧
    calculate_checksum d < 256 ∧
    (((d.drop 1).take 7).sum % 256 = 0 → calculate_checksum d = 0) := by
  rcases d with _ | ⟨b0, d⟩; · simp at h
  rcases d with _ | ⟨b1, d⟩; · simp at h
  rcases d with _ | ⟨b2, d⟩; · simp at h
  rcases d with _ | ⟨b3, d⟩; · simp at h
  rcases d with _ | ⟨b4, d⟩; · simp at h
  rcases d with _ | ⟨b5, d⟩; · simp at h
  rcases d with _ | ⟨b6, d⟩; · simp at h
  rcases d with _ | ⟨b7, d⟩; · simp at h
  simp [calculate_checksum, checksum_spec, byteNot, List.getD]
  omega

lemma push_read_garbage (b : Nat) (hb : b ≠ 255) (rest : List Nat)
    (w : List (List Nat)) :
    get_initiative_co_ppm ⟨true, b :: rest, w⟩ = (none, ⟨true, rest, w⟩) := by
  simp [get_initiative_co_ppm, SerialPort.read, hb]

lemma push_read_full (b1 b2 b3 b4 b5 b6 b7 b8 : Nat) (w : List (List Nat)) :
    get_initiative_co_ppm ⟨true, [255, b1, b2, b3, b4, b5, b6, b7, b8], w⟩
      = (if b8 = calculate_checksum [255, b1, b2, b3, b4, b5, b6, b7, b8]
          then some (ppm_of b4 b5) else none,
         ⟨true, [], w⟩) := by
  by_cases hc : b8 = calculate_checksum [255, b1, b2, b3, b4, b5, b6, b7, b8]
  · simp [get_initiative_co_ppm, SerialPort.read, List.getD, if_pos hc]
  · simp [get_initiative_co_ppm, SerialPort.read, List.getD, if_neg hc]

lemma push_read_valid (f : List Nat) (h9 : f.length = 9)
    (h0 : f.getD 0 0 = 255) (hc : f.getD 8 0 = calculate_checksum f)
    (w : List (List Nat)) :
    get_initiative_co_ppm ⟨true, f, w⟩
      = (some (ppm_of (f.getD 4 0) (f.getD 5 0)), ⟨true, [], w⟩) := by
  obtain ⟨b0, b1, b2, b3, b4, b5, b6, b7, b8, rfl⟩ := list_len_nine f h9
  simp [List.getD] at h0
  subst h0
  simp [List.getD] at hc
  rw [push_read_full, if_pos hc]
  simp [List.getD]

lemma push_read_invalid (f : List Nat) (h9 : f.length = 9)
    (h0 : f.getD 0 0 = 255) (hc : f.getD 8 0 ≠ calculate_checksum f)
    (w : List (List Nat)) :
    get_initiative_co_ppm ⟨true, f, w⟩ = (none, ⟨true, [], w⟩) := by
  obtain ⟨b0, b1, b2, b3, b4, b5, b6, b7, b8, rfl⟩ := list_len_nine f h9
  simp [List.getD] at h0
  subst h0
  simp [List.getD] at hc
  rw [push_read_full, if_neg hc]

lemma push_read_incomplete (rest : List Nat) (h : rest.length < 8)
    (w : List (List Nat)) :
    get_initiative_co_ppm ⟨true, 255 :: rest, w⟩ = (none, ⟨true, [], w⟩) := by
  have htake : rest.take 8 = rest := List.take_of_length_le (by omega)
  have hdrop : rest.drop 8 = [] := List.drop_eq_nil_of_le (by omega)
  have hlen : (rest.take 8).length ≠ 8 := by rw [htake]; omega
  simp [get_initiative_co_ppm, SerialPort.read, hlen, hdrop]
  intro h8
  exact absurd h8 (by omega)

theorem checksum_spec_correct_witness :
    8 ≤ ([0xFF, 0x01, 0x86, 0x00, 0x96, 0x00, 0x00, 0x00] : List Nat).length ∧
    calculate_checksum [0xFF, 0x01, 0x86, 0x00, 0x96, 0x00, 0x00, 0x00]
      = checksum_spec [0xFF, 0x01, 0x86, 0x00, 0x96, 0x00, 0x00, 0x00] ∧
    calculate_checksum [0xFF, 0x01, 0x86, 0x00, 0x96, 0x00, 0x00, 0x00] < 256 :=
  ⟨by decide,
   (checksum_spec_correct [0xFF, 0x01, 0x86, 0x00, 0x96, 0x00, 0x00, 0x00] (by decide)).1,
   (checksum_spec_correct [0xFF, 0x01, 0x86, 0x00, 0x96, 0x00, 0x00, 0x00] (by decide)).2.1⟩

lemma checksum_take_eight (f : List Nat) :
    calculate_checksum (f.take 8) = calculate_checksum f := by
  simp [calculate_checksum, List.drop_take, List.take_take]

/-- Claim C2: for a 9-byte push frame starting with the marker `0xFF` whose
body is fully available, decoding succeeds iff byte 8 equals the checksum
(computed over bytes 1..7, so the checksum of the first 8 bytes and of the
whole frame coincide); on success the measurement is
`(frame[4]*256 + frame[5]) * 0.1`, on mismatch no measurement is
returned. -/
theorem push_decode_iff_checksum (f : List Nat) (h9 : f.length = 9)
    (h0 : f.getD 0 0 = 255) :
    ((get_initiative_co_ppm ⟨true, f, []⟩).1.isSome ↔
      f.getD 8 0 = calculate_checksum f) ∧
    calculate_checksum (f.take 8) = calculate_checksum f ∧
    (f.getD 8 0 = calculate_checksum f →
      (get_initiative_co_ppm ⟨true, f, []⟩).1
        = some (ppm_of (f.getD 4 0) (f.getD 5 0))) ∧
    (f.getD 8 0 ≠ calculate_checksum f →
      (get_initiative_co_ppm ⟨true, f, []⟩).1 = none) := by
  refine ⟨?_, checksum_take_eight f, ?_, ?_⟩
  · by_cases hc : f.getD 8 0 = calculate_checksum f
    · rw [push_read_valid f h9 h0 hc]; simpa using hc
    · rw [push_read_invalid f h9 h0 hc]; simpa using hc
  · intro hc; rw [push_read_valid f h9 h0 hc]
  · intro hc; rw [push_read_invalid f h9 h0 hc]

theorem push_decode_iff_checksum_witness :
    (get_initiative_co_ppm ⟨true, [255, 1, 0, 0, 0, 100, 0, 0, 155], []⟩).1
      = some (ppm_of 0 100) :=
  (push_decode_iff_checksum [255, 1, 0, 0, 0, 100, 0, 0, 155]
    (by decide) (by decide)).2.2.1 (by decide)

/-- Claim C3: any run of non-`0xFF` garbage bytes in front of a valid
checksummed frame is discarded byte by byte, and the frame behind it is
still decoded to its measurement. -/
theorem resync_after_garbage (g f : List Nat) (hg : ∀ b ∈ g, b ≠ 255)
    (h9 : f.length = 9) (h0 : f.getD 0 0 = 255)
    (hc : f.getD 8 0 = calculate_checksum f) :
    read_loop (g.length + 1) ⟨true, g ++ f, []⟩
      = (some (ppm_of (f.getD 4 0) (f.getD 5 0)), ⟨true, [], []⟩) := by
  revert hg
  induction g with
  | nil =>
    intro hg
    show read_loop 1 ⟨true, [] ++ f, []⟩ = _
    rw [List.nil_append]
    unfold read_loop
    rw [push_read_valid f h9 h0 hc]
  | cons b g ih =>
    intro hg
    have hb : b ≠ 255 := hg b (List.mem_cons_self b g)
    have hg2 : ∀ x ∈ g, x ≠ 255 := fun x hx => hg x (List.mem_cons_of_mem b hx)
    show read_loop (g.length + 1 + 1) ⟨true, b :: (g ++ f), []⟩ = _
    unfold read_loop
    rw [push_read_garbage b hb]
    exact ih hg2

theorem resync_after_garbage_witness :
    read_loop 3 ⟨true, [18, 52] ++ [255, 1, 0, 0, 0, 100, 0, 0, 155], []⟩
      = (some (ppm_of 0 100), ⟨true, [], []⟩) :=
  resync_after_garbage [18, 52] [255, 1, 0, 0, 0, 100, 0, 0, 155]
    (by decide) (by decide) (by decide) (by decide)

/-- Claim C5: a valid push frame carrying high byte `0x00`, low byte `0x64`
(raw 100) decodes to 10.0 ppm, and a valid query response carrying high
byte `0x01`, low byte `0x90` (raw 400) decodes to 40.0 ppm. -/
theorem known_measurement_values :
    (get_initiative_co_ppm ⟨true, [255, 0, 0, 0, 0, 100, 0, 0, 156], []⟩).1
      = some 10 ∧
    (get_qa_co_ppm ⟨true, [255, 134, 1, 144, 0, 0, 0, 0, 233], []⟩).1
      = some 40 := by
  constructor
  · rw [push_read_valid _ (by decide) (by decide) (by decide)]
    norm_num [ppm_of, List.getD]
  · norm_num [get_qa_co_ppm, SerialPort.read, SerialPort.write, List.getD,
      ppm_of, calculate_checksum, byteNot]

/-- Claim C7: a start marker followed by fewer than 8 body bytes before the
timeout yields no measurement and leaves no stale bytes behind: the
partial bytes are consumed and dropped, and a subsequent call seeing a
fresh valid frame decodes it exactly as from a clean start. -/
theorem partial_frame_resets (rest f : List Nat) (hr : rest.length < 8)
    (h9 : f.length = 9) (h0 : f.getD 0 0 = 255)
    (hc : f.getD 8 0 = calculate_checksum f) :
    get_initiative_co_ppm ⟨true, 255 :: rest, []⟩ = (none, ⟨true, [], []⟩) ∧
    get_initiative_co_ppm
        ((get_initiative_co_ppm ⟨true, 255 :: rest, []⟩).2.feed f)
      = (some (ppm_of (f.getD 4 0) (f.getD 5 0)), ⟨true, [], []⟩) := by
  have h1 := push_read_incomplete rest hr []
  refine ⟨h1, ?_⟩
  rw [h1]
  show get_initiative_co_ppm ⟨true, [] ++ f, []⟩ = _
  rw [List.nil_append]
  exact push_read_valid f h9 h0 hc []

theorem partial_frame_resets_witness :
    get_initiative_co_ppm ⟨true, [255, 7, 9], []⟩ = (none, ⟨true, [], []⟩) ∧
    get_initiative_co_ppm
        ((get_initiative_co_ppm ⟨true, [255, 7, 9], []⟩).2.feed
          [255, 1, 0, 0, 0, 100, 0, 0, 155])
      = (some (ppm_of 0 100), ⟨true, [], []⟩) :=
  partial_frame_resets [7, 9] [255, 1, 0, 0, 0, 100, 0, 0, 155]
    (by decide) (by decide) (by decide) (by decide)

lemma qa_read_eval (resp : List Nat) (hlen : resp.length ≤ 9) :
    get_qa_co_ppm ⟨true, resp, []⟩
      = (if resp.length = 9 ∧ resp.getD 0 0 = 255 ∧ resp.getD 1 0 = 134 then
          (if resp.getD 8 0 = calculate_checksum resp
            then some (ppm_of (resp.getD 2 0) (resp.getD 3 0)) else none)
         else none,
         ⟨true, [], [qa_request_command]⟩) := by
  have htake : resp.take 9 = resp := List.take_of_length_le hlen
  have hdrop : resp.drop 9 = [] := List.drop_eq_nil_of_le hlen
  simp only [get_qa_co_ppm, SerialPort.write, SerialPort.read, htake, hdrop]
  simp
  split
  · split <;> rfl
  · rfl

/-- Claim C4: the query operation writes the request-reading command and
does one 9-byte read; a short response yields no measurement, a response
without the `0xFF 0x86` header yields no measurement, and a full headed
response is checksum-validated exactly like a push frame, returning
`(response[2]*256 + response[3]) * 0.1` on success. -/
theorem qa_request_reading (resp : List Nat) (hlen : resp.length ≤ 9) :
    (get_qa_co_ppm ⟨true, resp, []⟩).2.written = [qa_request_command] ∧
    (resp.length < 9 → (get_qa_co_ppm ⟨true, resp, []⟩).1 = none) ∧
    (¬ (resp.getD 0 0 = 255 ∧ resp.getD 1 0 = 134) →
      (get_qa_co_ppm ⟨true, resp, []⟩).1 = none) ∧
    (resp.length = 9 → resp.getD 0 0 = 255 → resp.getD 1 0 = 134 →
      resp.getD 8 0 = calculate_checksum resp →
      (get_qa_co_ppm ⟨true, resp, []⟩).1
        = some (ppm_of (resp.getD 2 0) (resp.getD 3 0))) ∧
    (resp.length = 9 → resp.getD 8 0 ≠ calculate_checksum resp →
      (get_qa_co_ppm ⟨true, resp, []⟩).1 = none) := by
  refine ⟨by rw [qa_read_eval resp hlen], ?_, ?_, ?_, ?_⟩
  · intro h
    rw [qa_read_eval resp hlen]
    simp only
    rw [if_neg (fun hcond => absurd hcond.1 (by omega))]
  · intro h
    rw [qa_read_eval resp hlen]
    simp only
    rw [if_neg (fun hcond => h ⟨hcond.2.1, hcond.2.2⟩)]
  · intro h1 h2 h3 h4
    rw [qa_read_eval resp hlen]
    simp only
    rw [if_pos ⟨h1, h2, h3⟩, if_pos h4]
  · intro h1 h5
    rw [qa_read_eval resp hlen]
    simp only
    by_cases hcond : resp.length = 9 ∧ resp.getD 0 0 = 255 ∧ resp.getD 1 0 = 134
    · rw [if_pos hcond, if_neg h5]
    · rw [if_neg hcond]

theorem qa_request_reading_witness :
    (get_qa_co_ppm ⟨true, [255, 134, 1, 144, 0, 0, 0, 0, 233], []⟩).1
      = some (ppm_of 1 144) :=
  (qa_request_reading [255, 134, 1, 144, 0, 0, 0, 0, 233] (by decide)).2.2.2.1
    (by decide) (by decide) (by decide) (by decide)

/-- Claim C10: on a closed port the mode setters return `False` and the
measurement operations return `None`; on an open port the mode setters
return `None` (the Python implicit return), so the closed-port outcome and
the success outcome of a mode set are both falsy and indistinguishable by
truthiness. -/
theorem closed_port_falsy (s t : SerialPort) (hs : s.is_open = false)
    (ht : t.is_open = true) :
    (set_initiative_upload_mode s).1 = PyResult.pyBool false ∧
    (set_qa_mode s).1 = PyResult.pyBool false ∧
    (get_initiative_co_ppm s).1 = none ∧
    (get_qa_co_ppm s).1 = none ∧
    (set_initiative_upload_mode t).1 = PyResult.pyNone ∧
    (set_qa_mode t).1 = PyResult.pyNone ∧
    (set_initiative_upload_mode s).1.truthy = false ∧
    (set_initiative_upload_mode t).1.truthy = false ∧
    (set_qa_mode s).1.truthy = false ∧
    (set_qa_mode t).1.truthy = false := by
  simp [set_initiative_upload_mode, set_qa_mode, get_initiative_co_ppm,
    get_qa_co_ppm, hs, ht, PyResult.truthy]

theorem closed_port_falsy_witness :
    (set_initiative_upload_mode ⟨false, [], []⟩).1 = PyResult.pyBool false ∧
    (set_qa_mode ⟨false, [], []⟩).1 = PyResult.pyBool false ∧
    (get_initiative_co_ppm ⟨false, [], []⟩).1 = none ∧
    (get_qa_co_ppm ⟨false, [], []⟩).1 = none ∧
    (set_initiative_upload_mode ⟨true, [], []⟩).1 = PyResult.pyNone ∧
    (set_qa_mode ⟨true, [], []⟩).1 = PyResult.pyNone ∧
    (set_initiative_upload_mode ⟨false, [], []⟩).1.truthy = false ∧
    (set_initiative_upload_mode ⟨true, [], []⟩).1.truthy = false ∧
    (set_qa_mode ⟨false, [], []⟩).1.truthy = false ∧
    (set_qa_mode ⟨true, [], []⟩).1.truthy = false :=
  closed_port_falsy ⟨false, [], []⟩ ⟨true, [], []⟩ rfl rfl

lemma list_len_seven (l : List Nat) (h : l.length = 7) :
    ∃ a b c d e g i, l = [a, b, c, d, e, g, i] := by
  rcases l with _ | ⟨a, l⟩; · simp at h
  rcases l with _ | ⟨b, l⟩; · simp at h
  rcases l with _ | ⟨c, l⟩; · simp at h
  rcases l with _ | ⟨d, l⟩; · simp at h
  rcases l with _ | ⟨e, l⟩; · simp at h
  rcases l with _ | ⟨g, l⟩; · simp at h
  rcases l with _ | ⟨i, l⟩; · simp at h
  rcases l with _ | ⟨j, l⟩
  · exact ⟨a, b, c, d, e, g, i, rfl⟩
  · simp at h

/-- Claim C9: appending the checksum of an 8-byte command (start marker
plus any 7-byte payload) yields a 9-byte frame that passes the decoder's
checksum re-check, and the push decoder accepts it. -/
theorem build_verify_roundtrip (P : List Nat) (h7 : P.length = 7) :
    ((255 :: P) ++ [calculate_checksum (255 :: P)]).getD 8 0
      = calculate_checksum ((255 :: P) ++ [calculate_checksum (255 :: P)]) ∧
    (get_initiative_co_ppm
        ⟨true, (255 :: P) ++ [calculate_checksum (255 :: P)], []⟩).1.isSome
      = true := by
  obtain ⟨p1, p2, p3, p4, p5, p6, p7, rfl⟩ := list_len_seven P h7
  have hc : ((255 :: [p1, p2, p3, p4, p5, p6, p7])
        ++ [calculate_checksum (255 :: [p1, p2, p3, p4, p5, p6, p7])]).getD 8 0
      = calculate_checksum ((255 :: [p1, p2, p3, p4, p5, p6, p7])
        ++ [calculate_checksum (255 :: [p1, p2, p3, p4, p5, p6, p7])]) := by
    simp [calculate_checksum, byteNot, List.getD]
  refine ⟨hc, ?_⟩
  rw [push_read_valid _ (by simp) (by simp [List.getD]) hc []]
  simp

theorem build_verify_roundtrip_witness :
    ((255 :: [1, 134, 0, 150, 0, 0, 0])
        ++ [calculate_checksum (255 :: [1, 134, 0, 150, 0, 0, 0])]).getD 8 0
      = calculate_checksum ((255 :: [1, 134, 0, 150, 0, 0, 0])
        ++ [calculate_checksum (255 :: [1, 134, 0, 150, 0, 0, 0])]) :=
  (build_verify_roundtrip [1, 134, 0, 150, 0, 0, 0] (by decide)).1

/-- Claim C8 counterexample: the request-reading command the code writes
has byte 2 equal to `0x86`, not the `0x78` the claim asserts for all three
commands. -/
theorem request_opcode_cex :
    qa_request_command.getD 2 0 = 134 ∧ ¬ qa_request_command.getD 2 0 = 120 := by
  decide

/-- Claim C8 (amended): the mode-set commands are
`FF 01 78 40 00 00 00 00 47` and `FF 01 78 41 00 00 00 00 46`, while the
request-reading command is `FF 01 86 00 00 00 00 00 79` (byte 2 is `0x86`,
not `0x78`); in each, byte 8 is the checksum of the first 8 bytes, and the
session operations write exactly these frames. -/
theorem command_frames_amended :
    upload_mode_command = [255, 1, 120, 64, 0, 0, 0, 0, 71] ∧
    qa_mode_command = [255, 1, 120, 65, 0, 0, 0, 0, 70] ∧
    qa_request_command = [255, 1, 134, 0, 0, 0, 0, 0, 121] ∧
    upload_mode_command.getD 8 0 = calculate_checksum upload_mode_command ∧
    qa_mode_command.getD 8 0 = calculate_checksum qa_mode_command ∧
    qa_request_command.getD 8 0 = calculate_checksum qa_request_command ∧
    (∀ t : SerialPort, t.is_open = true →
      (set_initiative_upload_mode t).2.written
        = t.written ++ [upload_mode_command] ∧
      (set_qa_mode t).2.written = t.written ++ [qa_mode_command] ∧
      (get_qa_co_ppm t).2.written = t.written ++ [qa_request_command]) := by
  refine ⟨by decide, by decide, by decide, by decide, by decide, by decide, ?_⟩
  intro t ht
  refine ⟨by simp [set_initiative_upload_mode, SerialPort.write, ht],
    by simp [set_qa_mode, SerialPort.write, ht], ?_⟩
  simp only [get_qa_co_ppm, SerialPort.write, SerialPort.read, ht]
  split
  · simp_all
  · split
    · split <;> simp
    · simp

lemma xor_pow_ne (b k : Nat) : b ^^^ 2 ^ k ≠ b := by
  intro h
  have h2 : b ^^^ (b ^^^ 2 ^ k) = b ^^^ b := congrArg (b ^^^ ·) h
  rw [← Nat.xor_assoc, Nat.xor_self, Nat.zero_xor] at h2
  exact absurd h2 (Nat.two_pow_pos k).ne'

lemma xor_lt_256 (b c : Nat) (hb : b < 256) (hc : c < 256) : b ^^^ c < 256 := by
  have h8 : (256 : Nat) = 2 ^ 8 := by norm_num
  rw [h8] at hb hc ⊢
  exact Nat.bitwise_lt hb hc

/-- Claim C6: in a 9-byte frame that passes checksum validation, flipping
any single bit of any byte 1..8 produces a frame that fails validation:
the flip changes the sum over bytes 1..7 modulo 256 (or the checksum byte
itself), and the negated-sum checksum is injective in that residue. -/
theorem single_bit_flip_detected (f : List Nat) (h9 : f.length = 9)
    (hbytes : ∀ b ∈ f, b < 256)
    (hv : f.getD 8 0 = calculate_checksum f)
    (i k : Nat) (hi1 : 1 ≤ i) (hi8 : i ≤ 8) (hk : k < 8) :
    (flipBit f i k).getD 8 0 ≠ calculate_checksum (flipBit f i k) := by
  obtain ⟨b0, b1, b2, b3, b4, b5, b6, b7, b8, rfl⟩ := list_len_nine f h9
  have h2k : (2 : Nat) ^ k < 256 := by
    calc (2 : Nat) ^ k < 2 ^ 8 := Nat.pow_lt_pow_right (by norm_num) hk
    _ = 256 := by norm_num
  have hB1 : b1 < 256 := hbytes b1 (by simp)
  have hB2 : b2 < 256 := hbytes b2 (by simp)
  have hB3 : b3 < 256 := hbytes b3 (by simp)
  have hB4 : b4 < 256 := hbytes b4 (by simp)
  have hB5 : b5 < 256 := hbytes b5 (by simp)
  have hB6 : b6 < 256 := hbytes b6 (by simp)
  have hB7 : b7 < 256 := hbytes b7 (by simp)
  simp [calculate_checksum, byteNot, List.getD] at hv
  interval_cases i
  · have hne := xor_pow_ne b1 k
    have hlt := xor_lt_256 b1 (2 ^ k) hB1 h2k
    rw [show flipBit [b0, b1, b2, b3, b4, b5, b6, b7, b8] 1 k
        = [b0, b1 ^^^ 2 ^ k, b2, b3, b4, b5, b6, b7, b8] from rfl]
    simp [calculate_checksum, byteNot, List.getD]
    omega
  · have hne := xor_pow_ne b2 k
    have hlt := xor_lt_256 b2 (2 ^ k) hB2 h2k
    rw [show flipBit [b0, b1, b2, b3, b4, b5, b6, b7, b8] 2 k
        = [b0, b1, b2 ^^^ 2 ^ k, b3, b4, b5, b6, b7, b8] from rfl]
    simp [calculate_checksum, byteNot, List.getD]
    omega
  · have hne := xor_pow_ne b3 k
    have hlt := xor_lt_256 b3 (2 ^ k) hB3 h2k
    rw [show flipBit [b0, b1, b2, b3, b4, b5, b6, b7, b8] 3 k
        = [b0, b1, b2, b3 ^^^ 2 ^ k, b4, b5, b6, b7, b8] from rfl]
    simp [calculate_checksum, byteNot, List.getD]
    omega
  · have hne := xor_pow_ne b4 k
    have hlt := xor_lt_256 b4 (2 ^ k) hB4 h2k
    rw [show flipBit [b0, b1, b2, b3, b4, b5, b6, b7, b8] 4 k
        = [b0, b1, b2, b3, b4 ^^^ 2 ^ k, b5, b6, b7, b8] from rfl]
    simp [calculate_checksum, byteNot, List.getD]
    omega
  · have hne := xor_pow_ne b5 k
    have hlt := xor_lt_256 b5 (2 ^ k) hB5 h2k
    rw [show flipBit [b0, b1, b2, b3, b4, b5, b6, b7, b8] 5 k
        = [b0, b1, b2, b3, b4, b5 ^^^ 2 ^ k, b6, b7, b8] from rfl]
    simp [calculate_checksum, byteNot, List.getD]
    omega
  · have hne := xor_pow_ne b6 k
    have hlt := xor_lt_256 b6 (2 ^ k) hB6 h2k
    rw [show flipBit [b0, b1, b2, b3, b4, b5, b6, b7, b8] 6 k
        = [b0, b1, b2, b3, b4, b5, b6 ^^^ 2 ^ k, b7, b8] from rfl]
    simp [calculate_checksum, byteNot, List.getD]
    omega
  · have hne := xor_pow_ne b7 k
    have hlt := xor_lt_256 b7 (2 ^ k) hB7 h2k
    rw [show flipBit [b0, b1, b2, b3, b4, b5, b6, b7, b8] 7 k
        = [b0, b1, b2, b3, b4, b5, b6, b7 ^^^ 2 ^ k, b8] from rfl]
    simp [calculate_checksum, byteNot, List.getD]
    omega
  · have hne := xor_pow_ne b8 k
    rw [show flipBit [b0, b1, b2, b3, b4, b5, b6, b7, b8] 8 k
        = [b0, b1, b2, b3, b4, b5, b6, b7, b8 ^^^ 2 ^ k] from rfl]
    simp [calculate_checksum, byteNot, List.getD]
    omega

theorem single_bit_flip_detected_witness :
    (flipBit [255, 1, 0, 0, 0, 100, 0, 0, 155] 4 0).getD 8 0
      ≠ calculate_checksum (flipBit [255, 1, 0, 0, 0, 100, 0, 0, 155] 4 0) :=
  single_bit_flip_detected [255, 1, 0, 0, 0, 100, 0, 0, 155] (by decide)
    (by decide) (by decide) 4 0 (by decide) (by decide) (by decide)

theorem command_frames_amended_witness :
    (set_initiative_upload_mode ⟨true, [], []⟩).2.written
        = [] ++ [upload_mode_command] ∧
    (set_qa_mode ⟨true, [], []⟩).2.written = [] ++ [qa_mode_command] ∧
    (get_qa_co_ppm ⟨true, [], []⟩).2.written = [] ++ [qa_request_command] :=
  command_frames_amended.2.2.2.2.2.2 ⟨true, [], []⟩ rfl

end ZE07
